import Mathlib

/-
  Verification development for the usb::Relay controller
  (usb_relay.h / usb_relay.cpp, libusb-1.0 variant).

  The C++ class is embedded shallowly: the mutable fields that the modelled
  operations touch become a state record, each USB control transfer becomes an
  oracle value describing the outcome the transport would report (the returned
  length or negative error code, and the 8 report bytes left in the buffer),
  and each member function becomes a pure state-passing function following the
  source line by line.
-/

namespace UsbRelay

/-- Outcome of one 8-byte HID GET control transfer: the value returned by
libusb_control_transfer (the transferred length, or a negative error code)
together with the 8 bytes left in the report buffer. -/
structure GetReply where
  res : Int
  bytes : List Nat
deriving DecidableEq

/-- The fields of usb::Relay that the modelled operations read or write.
Bytes are Nat values kept below 256 by the operations themselves, matching
the quint8 casts in the source. -/
structure RelayState where
  deviceHandleOpen : Bool
  deviceInitialized : Bool
  usbContinuousErrors : Nat
  usbLastErrorCode : Int
  product : List Char
  serial : List Char
  states : Nat
  count : Int
  initStates : List Int
  attachSerial : List Char
deriving DecidableEq

/-- The default-constructed controller: null handle, not initialized,
zero counters, empty strings, relay count 0. -/
def initialState : RelayState :=
  { deviceHandleOpen := false
    deviceInitialized := false
    usbContinuousErrors := 0
    usbLastErrorCode := 0
    product := []
    serial := []
    states := 0
    count := 0
    initStates := []
    attachSerial := [] }

/-- Relay::readStates: issues a GET transfer; on a short or failed transfer
it records the error code when negative, increments the continuous-error
counter and returns -1; on success it resets both counters and returns
quint8 of byte 7 of the report. -/
def readStates (s : RelayState) (r : GetReply) : RelayState × Int :=
  if r.res ≠ 8 then
    (if r.res < 0 then
      { s with usbLastErrorCode := r.res, usbContinuousErrors := s.usbContinuousErrors + 1 }
    else
      { s with usbContinuousErrors := s.usbContinuousErrors + 1 }, -1)
  else
    ({ s with usbContinuousErrors := 0, usbLastErrorCode := 0 },
      ((r.bytes.getD 7 0 % 256 : Nat) : Int))

/-- One USB control transfer as observed on the wire: a GET, or a SET
carrying its 8-byte report buffer. -/
inductive Xfer where
  | get : Xfer
  | set : List Nat → Xfer
deriving DecidableEq

/-- The Qt signals the controller emits. -/
inductive RelayEvent where
  | attachedSig : RelayEvent
  | detachedSig : RelayEvent
  | changed : Int → RelayEvent
  | failChange : Int → RelayEvent
deriving DecidableEq

/-- Transport outcomes for the up to three transfers a toggle call issues:
the GET pre-read (used only for a single-relay toggle), the SET command,
and the GET verification re-read. -/
structure ToggleOracle where
  preRead : GetReply
  setRes : Int
  postRead : GetReply
deriving DecidableEq

/-- Everything a toggle call produces: the updated controller state, the
returned Bool, the emitted signals, and the transfers issued in order. -/
structure ToggleResult where
  state : RelayState
  ok : Bool
  events : List RelayEvent
  xfers : List Xfer
deriving DecidableEq

/-- Expected bitmask for an all-relays toggle: quint8 of
(1U shifted left by relayCount) - 1 when switching on, 0 when switching off. -/
def expectAll (relayCount : Int) (value : Bool) : Nat :=
  if value then (2 ^ relayCount.toNat - 1) % 256 else 0

/-- Expected bitmask for a single-relay toggle: the current bitmask with bit
relayNumber-1 set (bitwise or) or cleared (bitwise and with the 32-bit
complement of the bit, then the quint8 assignment truncation). -/
def expectSingle (current : Nat) (relayNumber : Int) (value : Bool) : Nat :=
  if value then (current ||| 1 <<< (relayNumber - 1).toNat) % 256
  else (current &&& (4294967295 - 1 <<< (relayNumber - 1).toNat)) % 256

/-- The tail of Relay::toggleInternal common to both branches: send the
command report over a SET transfer, re-read the states, adopt the re-read
bitmask, compare with the expected bitmask, and on full success reset the
error counters and emit changed. -/
def toggleSend (s : RelayState) (relayNumber : Int) (cmd1 cmd2 expectStates : Nat)
    (o : ToggleOracle) (pre : List Xfer) : ToggleResult :=
  let buff : List Nat := [cmd1, cmd2, 0, 0, 0, 0, 0, 0]
  if o.setRes ≠ 8 then
    ⟨if o.setRes < 0 then
        { s with usbLastErrorCode := o.setRes, usbContinuousErrors := s.usbContinuousErrors + 1 }
      else
        { s with usbContinuousErrors := s.usbContinuousErrors + 1 },
      false, [RelayEvent.failChange relayNumber], pre ++ [Xfer.set buff]⟩
  else
    if (readStates s o.postRead).2 < 0 then
      ⟨(readStates s o.postRead).1, false, [RelayEvent.failChange relayNumber],
        pre ++ [Xfer.set buff, Xfer.get]⟩
    else
      if (readStates s o.postRead).2.toNat % 256 ≠ expectStates then
        ⟨{ (readStates s o.postRead).1 with
            states := (readStates s o.postRead).2.toNat % 256 },
          false, [RelayEvent.failChange relayNumber], pre ++ [Xfer.set buff, Xfer.get]⟩
      else
        ⟨{ (readStates s o.postRead).1 with
            states := (readStates s o.postRead).2.toNat % 256,
            usbContinuousErrors := 0, usbLastErrorCode := 0 },
          true, [RelayEvent.changed relayNumber], pre ++ [Xfer.set buff, Xfer.get]⟩

/-- Relay::toggleInternal: fail if not initialized; fail if relayNumber is
above the relay count; for relayNumber at most 0 select the all-on or
all-off command (byte0 0xFE or 0xFC) with no pre-read and relayNumber
rewritten to 0; otherwise pre-read the current bitmask and select the
single-relay command (byte0 0xFF or 0xFD, byte1 the relay number). -/
def toggleInternal (s : RelayState) (relayNumber : Int) (value : Bool)
    (o : ToggleOracle) : ToggleResult :=
  if s.deviceInitialized = false then
    ⟨s, false, [RelayEvent.failChange relayNumber], []⟩
  else if relayNumber > s.count then
    ⟨s, false, [RelayEvent.failChange relayNumber], []⟩
  else if relayNumber ≤ 0 then
    toggleSend s 0 (if value then 254 else 252) 0 (expectAll s.count value) o []
  else
    if (readStates s o.preRead).2 < 0 then
      ⟨(readStates s o.preRead).1, false, [RelayEvent.failChange relayNumber], [Xfer.get]⟩
    else
      toggleSend (readStates s o.preRead).1 relayNumber
        (if value then 255 else 253) (relayNumber.toNat % 256)
        (expectSingle ((readStates s o.preRead).2.toNat % 256) relayNumber value)
        o [Xfer.get]

/-- The byte-level truncation (toUtf8, resize to 5 when longer) and the
right-padding with the character 0 (byte 48) up to length 5 performed at the
top of Relay::setSerial. -/
def normalizeSerial (value : List Nat) : List Nat :=
  (if 5 < value.length then value.take 5 else value) ++
    List.replicate (5 - (if 5 < value.length then value.take 5 else value).length) 48

/-- The per-byte validity check of Relay::setSerial: every byte of the
normalized serial must be strictly between 0x20 and 0x7F. -/
def serialBytesOk (val : List Nat) : Bool :=
  val.all fun ch => decide (32 < ch) && decide (ch < 127)

/-- QString::fromLatin1 on a NUL-terminated char buffer: the bytes before
the first zero, decoded as Latin-1 characters. -/
def latin1OfBytes (bytes : List Nat) : List Char :=
  (bytes.takeWhile fun b => decide (b % 256 ≠ 0)).map fun b => Char.ofNat (b % 256)

/-- Transport outcomes for the two transfers Relay::setSerial issues: the
SET command carrying the new serial and the GET read-back. -/
structure SerialOracle where
  setRes : Int
  reply : GetReply
deriving DecidableEq

/-- Everything a setSerial call produces: updated state, returned Bool, and
the transfers issued in order. -/
structure SerialResult where
  state : RelayState
  ok : Bool
  xfers : List Xfer
deriving DecidableEq

/-- Relay::setSerial: normalize the input, reject it without any transfer
when a byte is outside the printable-ASCII range, otherwise send the
0xFA command with the 5 serial bytes, read the report back, require byte 6
of the read-back to be the zero terminator, and store the read-back serial.
The function never checks _deviceInitialized or _deviceHandle. -/
def setSerial (s : RelayState) (value : List Nat) (o : SerialOracle) : SerialResult :=
  if serialBytesOk (normalizeSerial value) = false then
    ⟨s, false, []⟩
  else
    if o.setRes ≠ 8 then
      ⟨if o.setRes < 0 then
          { s with usbLastErrorCode := o.setRes, usbContinuousErrors := s.usbContinuousErrors + 1 }
        else
          { s with usbContinuousErrors := s.usbContinuousErrors + 1 },
        false, [Xfer.set (250 :: (normalizeSerial value ++ [0, 0]))]⟩
    else
      if (readStates s o.reply).2 < 0 then
        ⟨(readStates s o.reply).1, false,
          [Xfer.set (250 :: (normalizeSerial value ++ [0, 0])), Xfer.get]⟩
      else
        if o.reply.bytes.getD 6 0 % 256 ≠ 0 then
          ⟨(readStates s o.reply).1, false,
            [Xfer.set (250 :: (normalizeSerial value ++ [0, 0])), Xfer.get]⟩
        else
          ⟨{ (readStates s o.reply).1 with serial := latin1OfBytes o.reply.bytes },
            true, [Xfer.set (250 :: (normalizeSerial value ++ [0, 0])), Xfer.get]⟩

/-- Relay::statesInternal: the state vector of length _count whose entry i
is 1 exactly when bit i of the _states byte is set. -/
def statesInternal (s : RelayState) : List Int :=
  (List.range s.count.toNat).map fun i => if s.states &&& 1 <<< i ≠ 0 then 1 else 0

/-- The baseProductName constant of the source. -/
def baseProductName : List Char := ['U', 'S', 'B', 'R', 'e', 'l', 'a', 'y']

/-- The product-descriptor validation of Relay::claimDevice: the string must
start with baseProductName, have exactly one further character, and that
character minus the character 0 must be one of 1, 2, 4, 8; the result is the
relay count. -/
def validateProduct (product : List Char) : Option Int :=
  if product.take 8 ≠ baseProductName then none
  else if product.length ≠ 9 then none
  else if ((product.getD 8 'x').toNat : Int) - 48 = 1 ∨
          ((product.getD 8 'x').toNat : Int) - 48 = 2 ∨
          ((product.getD 8 'x').toNat : Int) - 48 = 4 ∨
          ((product.getD 8 'x').toNat : Int) - 48 = 8 then
    some (((product.getD 8 'x').toNat : Int) - 48)
  else none

/-- The enumeration loop of Relay::claimDevice restricted to the
product-validation aspect: each candidate whose product string fails the
validation is closed (second component counts the closes) and the scan
continues; the first valid candidate is accepted. -/
def productScan : List (List Char) → Option (List Char × Int) × Nat
  | [] => (none, 0)
  | p :: ps =>
    match validateProduct p with
    | some c => (some (p, c), 0)
    | none => ((productScan ps).1, (productScan ps).2 + 1)

/-- A candidate device as Relay::claimDevice sees it once its descriptors
are read: the product string and the initial GET-states report. -/
structure Candidate where
  productStr : List Char
  stateReply : GetReply
deriving DecidableEq

/-- The publishing tail of Relay::claimDevice on a candidate: validate the
product string, read the initial report, require the serial terminator, and
publish product, serial, states and count with the handle open; run() then
marks the device initialized. A none result is a rejected candidate. -/
def claimPublish (s : RelayState) (cand : Candidate) : Option RelayState :=
  match validateProduct cand.productStr with
  | none => none
  | some relayCount =>
    if (readStates s cand.stateReply).2 < 0 then none
    else if cand.stateReply.bytes.getD 6 0 % 256 ≠ 0 then none
    else some { (readStates s cand.stateReply).1 with
      product := cand.productStr,
      serial := latin1OfBytes cand.stateReply.bytes,
      states := (readStates s cand.stateReply).2.toNat % 256,
      count := relayCount,
      deviceHandleOpen := true,
      deviceInitialized := true }

/-- Relay::releaseDevice: when the handle is open and the device is not known
to be detached, libusb_release_interface is called (second component);
the handle is closed and all session fields are cleared unconditionally. -/
def releaseDevice (s : RelayState) (deviceDetached : Bool) : RelayState × Bool :=
  ({ s with
      deviceHandleOpen := false
      deviceInitialized := false
      usbContinuousErrors := 0
      usbLastErrorCode := 0
      product := []
      serial := []
      count := 0 },
    s.deviceHandleOpen && !deviceDetached)

/-- The libusb header constant LIBUSB_ERROR_NO_DEVICE (the transport's
device-removed code), modelled from the library the source compiles against. -/
def libusbErrorNoDevice : Int := -4

/-- The two threshold checks at the top of Relay::run's inner loop: some d
when the loop breaks with deviceDetached set to d, none when it continues.
The first check fires at 3 continuous errors with the device-removed code,
the second at 5 continuous errors with any code; both set deviceDetached
to true in the source. -/
def innerLoopCheck (errors : Nat) (lastError : Int) : Option Bool :=
  if 3 ≤ errors ∧ lastError = libusbErrorNoDevice then some true
  else if 5 ≤ errors then some true
  else none

/-- One iteration body of the inner supervision loop of Relay::run: read the
states; on failure continue; on success adopt the bitmask when it differs
from the cached one (externally caused change). -/
def supervisorPoll (s : RelayState) (r : GetReply) : RelayState :=
  if (readStates s r).2 < 0 then (readStates s r).1
  else if (readStates s r).1.states ≠ (readStates s r).2.toNat % 256 then
    { (readStates s r).1 with states := (readStates s r).2.toNat % 256 }
  else (readStates s r).1

/-- The for-loop of Relay::run's initial-state block, iterating over the
index list: each iteration reads _initStates at index i (none models the
out-of-bounds access when i is not below the vector's length), compares it
with the snapshot taken before the loop, and toggles relay i+1 when they
differ, consuming one transport oracle per toggle (none when exhausted). -/
def initLoop (init snapshot : List Int) :
    RelayState → List ToggleOracle → List Nat → Option RelayState
  | s, _, [] => some s
  | s, os, i :: is =>
    match init.get? i with
    | none => none
    | some v =>
      if v ≠ snapshot.getD i 0 then
        match os with
        | [] => none
        | o :: rest =>
          initLoop init snapshot (toggleInternal s ((i : Int) + 1) (decide (v ≠ 0)) o).state rest is
      else initLoop init snapshot s os is

/-- The initial-state block of Relay::run: when _initStates is nonempty,
shrink it to _count when longer, snapshot the current state vector, run the
toggle loop over indices 0 .. _count-1, and clear _initStates. -/
def applyInitStates (s : RelayState) (os : List ToggleOracle) : Option RelayState :=
  if s.initStates.isEmpty then some s
  else
    match initLoop
        (if (s.initStates.length : Int) > s.count then s.initStates.take s.count.toNat
         else s.initStates)
        (statesInternal s)
        { s with initStates :=
            (if (s.initStates.length : Int) > s.count then s.initStates.take s.count.toNat
             else s.initStates) }
        os (List.range s.count.toNat) with
    | none => none
    | some s1 => some { s1 with initStates := [] }

/-- The mask argument Relay::toggleInternal compares the verification
re-read against, as a function of the call's inputs and the pre-read. -/
def toggleExpect (s : RelayState) (relayNumber : Int) (value : Bool)
    (o : ToggleOracle) : Nat :=
  if relayNumber ≤ 0 then expectAll s.count value
  else expectSingle (o.preRead.bytes.getD 7 0 % 256) relayNumber value

/-- The states of the controller reachable through the modelled operations:
the default-constructed object after init(), claim and publish, the
initial-state application, the supervisor poll, toggle, setSerial, release,
the attach-serial setter, and the outer loop clearing _deviceInitialized. -/
inductive Reachable : RelayState → Prop where
  | start (init : List Int) : Reachable { initialState with initStates := init }
  | claim {s s' : RelayState} (cand : Candidate) :
      Reachable s → claimPublish s cand = some s' → Reachable s'
  | applyInit {s s' : RelayState} (os : List ToggleOracle) :
      Reachable s → applyInitStates s os = some s' → Reachable s'
  | poll {s : RelayState} (r : GetReply) : Reachable s → Reachable (supervisorPoll s r)
  | toggleStep {s : RelayState} (relayNumber : Int) (value : Bool) (o : ToggleOracle) :
      Reachable s → Reachable (toggleInternal s relayNumber value o).state
  | serialStep {s : RelayState} (value : List Nat) (o : SerialOracle) :
      Reachable s → Reachable (setSerial s value o).state
  | releaseStep {s : RelayState} (deviceDetached : Bool) :
      Reachable s → Reachable (releaseDevice s deviceDetached).1
  | attach {s : RelayState} (v : List Char) :
      Reachable s → Reachable { s with attachSerial := v }
  | dropInit {s : RelayState} :
      Reachable s → Reachable { s with deviceInitialized := false }

/-- The controller state used in the C3 failing input: an attached 4-relay
board with all relays off and a pending 2-element InitialStateRequest. -/
def c3State : RelayState :=
  { deviceHandleOpen := true
    deviceInitialized := true
    usbContinuousErrors := 0
    usbLastErrorCode := 0
    product := []
    serial := []
    states := 0
    count := 4
    initStates := [1, 0]
    attachSerial := [] }

/-- A fully successful toggle transcript for the C3 failing input: pre-read
reports bitmask 0, the SET succeeds, the re-read reports bitmask 1. -/
def c3Oracle : ToggleOracle :=
  ⟨⟨8, [0, 0, 0, 0, 0, 0, 0, 0]⟩, 8, ⟨8, [0, 0, 0, 0, 0, 0, 0, 1]⟩⟩

/-- The controller state of the C4 counterexample: attached 2-relay board
with cached bitmask 1. -/
def c4State : RelayState :=
  { deviceHandleOpen := true
    deviceInitialized := true
    usbContinuousErrors := 0
    usbLastErrorCode := 0
    product := []
    serial := []
    states := 1
    count := 2
    initStates := []
    attachSerial := [] }

/-- The transfer transcript of the C4 counterexample: pre-read reports
bitmask 0, the SET succeeds, the verification re-read reports bitmask 2,
different from the expected bitmask 1. -/
def c4Oracle : ToggleOracle :=
  ⟨⟨8, [0, 0, 0, 0, 0, 0, 0, 0]⟩, 8, ⟨8, [0, 0, 0, 0, 0, 0, 0, 2]⟩⟩

/-- The controller state of the C8 counterexample: attached board with 2
accumulated continuous errors and last error code -7. -/
def c8State : RelayState :=
  { deviceHandleOpen := true
    deviceInitialized := true
    usbContinuousErrors := 2
    usbLastErrorCode := -7
    product := []
    serial := []
    states := 0
    count := 2
    initStates := []
    attachSerial := [] }

theorem readStates_success (s : RelayState) (r : GetReply) (h : r.res = 8) :
    readStates s r = ({ s with usbContinuousErrors := 0, usbLastErrorCode := 0 },
      ((r.bytes.getD 7 0 % 256 : Nat) : Int)) := by
  simp [readStates, h]

theorem readStates_fail (s : RelayState) (r : GetReply) (h : r.res ≠ 8) :
    readStates s r =
      (if r.res < 0 then
        { s with usbLastErrorCode := r.res, usbContinuousErrors := s.usbContinuousErrors + 1 }
      else
        { s with usbContinuousErrors := s.usbContinuousErrors + 1 }, -1) := by
  simp [readStates, h]

theorem toggleSend_success (s : RelayState) (rn : Int) (c1 c2 e : Nat)
    (o : ToggleOracle) (pre : List Xfer) (hset : o.setRes = 8) (hpost : o.postRead.res = 8) :
    toggleSend s rn c1 c2 e o pre =
      if o.postRead.bytes.getD 7 0 % 256 ≠ e then
        ⟨{ s with
            usbContinuousErrors := 0
            usbLastErrorCode := 0
            states := o.postRead.bytes.getD 7 0 % 256 },
          false, [RelayEvent.failChange rn],
          pre ++ [Xfer.set [c1, c2, 0, 0, 0, 0, 0, 0], Xfer.get]⟩
      else
        ⟨{ s with
            usbContinuousErrors := 0
            usbLastErrorCode := 0
            states := o.postRead.bytes.getD 7 0 % 256 },
          true, [RelayEvent.changed rn],
          pre ++ [Xfer.set [c1, c2, 0, 0, 0, 0, 0, 0], Xfer.get]⟩ := by
  have hmod : o.postRead.bytes.getD 7 0 % 256 % 256 = o.postRead.bytes.getD 7 0 % 256 := by
    omega
  simp only [toggleSend, hset, readStates_success s o.postRead hpost, ne_eq,
    not_true_eq_false, if_false, Int.toNat_natCast, hmod]
  norm_num
  intro h
  omega

set_option maxRecDepth 20000 in
theorem byte_or_mod : ∀ pre < 256, ∀ b < 8,
    (pre ||| 1 <<< b) % 256 = pre ||| 1 <<< b := by decide

set_option maxRecDepth 20000 in
theorem byte_and_mask : ∀ pre < 256, ∀ b < 8,
    (pre &&& (4294967295 - 1 <<< b)) % 256 = pre &&& (255 - 1 <<< b) := by decide

/-- C1: for an attached state with relay count in 1, 2, 4, 8 and transfers
that succeed: a toggle with relayNumber at most 0 sends byte0 0xFE (on,
expected bitmask all relayCount bits) or 0xFC (off, expected 0) with no GET
pre-read; a toggle with 1 at most relayNumber at most relayCount first
issues a GET pre-read and sends byte0 0xFF (on, expected is the current
bitmask with bit relayNumber-1 set) or 0xFD (off, bit cleared) with byte1
the relay number; the call returns true exactly when the verification
re-read equals the expected bitmask. -/
theorem c1_toggle_command_protocol (s : RelayState) (rn : Int) (v : Bool)
    (o : ToggleOracle)
    (hInit : s.deviceInitialized = true)
    (hcnt : s.count = 1 ∨ s.count = 2 ∨ s.count = 4 ∨ s.count = 8)
    (hset : o.setRes = 8) (hpost : o.postRead.res = 8) :
    (rn ≤ 0 →
      (toggleInternal s rn v o).xfers =
        [Xfer.set [if v then 254 else 252, 0, 0, 0, 0, 0, 0, 0], Xfer.get] ∧
      ((toggleInternal s rn v o).ok = true ↔
        o.postRead.bytes.getD 7 0 % 256 = (if v then 2 ^ s.count.toNat - 1 else 0))) ∧
    (1 ≤ rn → rn ≤ s.count → o.preRead.res = 8 →
      (toggleInternal s rn v o).xfers =
        [Xfer.get, Xfer.set [if v then 255 else 253, rn.toNat, 0, 0, 0, 0, 0, 0], Xfer.get] ∧
      ((toggleInternal s rn v o).ok = true ↔
        o.postRead.bytes.getD 7 0 % 256 =
          (if v then o.preRead.bytes.getD 7 0 % 256 ||| 1 <<< (rn.toNat - 1)
            else o.preRead.bytes.getD 7 0 % 256 &&& (255 - 1 <<< (rn.toNat - 1))))) := by
  have h1 : ¬ (s.deviceInitialized = false) := by rw [hInit]; simp
  constructor
  · intro hrn
    have h2 : ¬ (rn > s.count) := by rcases hcnt with h | h | h | h <;> omega
    have hexp : expectAll s.count v = if v then 2 ^ s.count.toNat - 1 else 0 := by
      rcases hcnt with h | h | h | h <;> rw [h] <;> cases v <;> decide
    rw [toggleInternal, if_neg h1, if_neg h2, if_pos hrn,
      toggleSend_success _ _ _ _ _ _ _ hset hpost, hexp]
    constructor
    · split_ifs <;> simp
    · split_ifs with h <;> simp_all [List.getD]
  · intro h1rn hrnc hpre
    have h2 : ¬ (rn > s.count) := not_lt.mpr hrnc
    have h3 : ¬ (rn ≤ 0) := by omega
    have hc8 : rn.toNat ≤ 8 := by rcases hcnt with h | h | h | h <;> omega
    have hb : rn.toNat - 1 < 8 := by omega
    have hplt : o.preRead.bytes.getD 7 0 % 256 < 256 := Nat.mod_lt _ (by norm_num)
    have heq : (rn - 1).toNat = rn.toNat - 1 := by omega
    have hexp : expectSingle (o.preRead.bytes.getD 7 0 % 256) rn v =
        (if v then o.preRead.bytes.getD 7 0 % 256 ||| 1 <<< (rn.toNat - 1)
          else o.preRead.bytes.getD 7 0 % 256 &&& (255 - 1 <<< (rn.toNat - 1))) := by
      rw [expectSingle, heq]
      cases v
      · simpa using byte_and_mask _ hplt _ hb
      · simpa using byte_or_mod _ hplt _ hb
    have hmod : o.preRead.bytes.getD 7 0 % 256 % 256 = o.preRead.bytes.getD 7 0 % 256 := by
      omega
    have hcmd : rn.toNat % 256 = rn.toNat := by omega
    rw [toggleInternal, if_neg h1, if_neg h2, if_neg h3,
      readStates_success s o.preRead hpre]
    simp only [Int.toNat_natCast, hmod, hcmd]
    rw [if_neg (not_lt.mpr (Int.natCast_nonneg _)), hexp,
      toggleSend_success _ _ _ _ _ _ _ hset hpost]
    constructor
    · split_ifs <;> simp
    · split_ifs with h <;> simp_all [List.getD]

/-- Closed instance of c1_toggle_command_protocol: on an attached 2-relay
board with cached bitmask 1, toggling relay 1 on with pre-read bitmask 0 and
re-read bitmask 1 issues GET, SET 0xFF 0x01, GET and returns true. -/
theorem c1_toggle_command_protocol_witness :
    (toggleInternal c4State 1 true ⟨⟨8, [0, 0, 0, 0, 0, 0, 0, 0]⟩, 8,
        ⟨8, [0, 0, 0, 0, 0, 0, 0, 1]⟩⟩).xfers =
      [Xfer.get, Xfer.set [255, 1, 0, 0, 0, 0, 0, 0], Xfer.get] ∧
    (toggleInternal c4State 1 true ⟨⟨8, [0, 0, 0, 0, 0, 0, 0, 0]⟩, 8,
        ⟨8, [0, 0, 0, 0, 0, 0, 0, 1]⟩⟩).ok = true := by
  have h := (c1_toggle_command_protocol c4State 1 true
    ⟨⟨8, [0, 0, 0, 0, 0, 0, 0, 0]⟩, 8, ⟨8, [0, 0, 0, 0, 0, 0, 0, 1]⟩⟩
    (by decide) (by decide) (by decide) (by decide)).2
    (by decide) (by decide) (by decide)
  exact ⟨by simpa using h.1, h.2.mpr (by decide)⟩

/-- C2 counterexample: the inner-loop exit with 5 continuous errors and
last error code -7 (not the device-removed code -4) sets deviceDetached to
true, so the subsequent release skips the interface-release call — the
claim as stated says this exit releases with deviceDetached false. -/
theorem c2_generic_exit_sets_detached_cex :
    innerLoopCheck 5 (-7) = some true ∧
    (releaseDevice { initialState with deviceHandleOpen := true } true).2 = false := by
  decide

/-- C2 amended: every inner-loop exit — the 3-errors device-removed check
and the 5-errors generic check alike — sets deviceDetached to true, and
releaseDevice called with deviceDetached true never calls
libusb_release_interface. -/
theorem c2_both_exits_skip_release (errors : Nat) (lastError : Int) (d : Bool)
    (s : RelayState) (h : innerLoopCheck errors lastError = some d) :
    d = true ∧ (releaseDevice s true).2 = false := by
  constructor
  · unfold innerLoopCheck at h
    split_ifs at h <;> simp_all
  · simp [releaseDevice]

/-- Closed instance of c2_both_exits_skip_release at 5 errors, code -7. -/
theorem c2_both_exits_skip_release_witness :
    (true = true) ∧ (releaseDevice initialState true).2 = false :=
  c2_both_exits_skip_release 5 (-7) true initialState (by decide)

/-- C3: at the failing input — a pending InitialStateRequest [1, 0] of
length 2 on an attached 4-relay board with all relays reported off — the
first-attach loop runs i up to _count-1 = 3 and reads _initStates[2], past
the end of the 2-element vector (out of bounds, modelled as none), after
correctly toggling relay 1; the claim says the request vector is accessed
only at indices below its length. -/
theorem c3_init_request_out_of_bounds :
    applyInitStates c3State [c3Oracle] = none := by decide

/-- C4 counterexample: on an attached 2-relay board with cached bitmask 1,
toggling relay 1 on with pre-read bitmask 0 (expected bitmask 1) and
verification re-read bitmask 2 returns false, yet the cached _states byte
now holds 2, not its pre-call value 1 — the source assigns _states before
the comparison. -/
theorem c4_cache_mutated_on_mismatch_cex :
    (toggleInternal c4State 1 true c4Oracle).ok = false ∧
    (toggleInternal c4State 1 true c4Oracle).state.states = 2 ∧
    c4State.states = 1 := by decide

/-- C4 amended: when the SET succeeds and the verification re-read succeeds
but yields a bitmask different from the expected one, toggle returns false
and the cached _states byte holds the re-read bitmask (adopted before the
comparison), not necessarily its pre-call value. -/
theorem c4_cache_adopts_reread (s : RelayState) (rn : Int) (v : Bool)
    (o : ToggleOracle)
    (hInit : s.deviceInitialized = true) (hrn : rn ≤ s.count)
    (hpre : 0 < rn → o.preRead.res = 8)
    (hset : o.setRes = 8) (hpost : o.postRead.res = 8)
    (hne : o.postRead.bytes.getD 7 0 % 256 ≠ toggleExpect s rn v o) :
    (toggleInternal s rn v o).ok = false ∧
    (toggleInternal s rn v o).state.states = o.postRead.bytes.getD 7 0 % 256 := by
  have h1 : ¬ (s.deviceInitialized = false) := by rw [hInit]; simp
  have h2 : ¬ (rn > s.count) := not_lt.mpr hrn
  by_cases hle : rn ≤ 0
  · have hne1 : o.postRead.bytes.getD 7 0 % 256 ≠ expectAll s.count v := by
      rw [toggleExpect, if_pos hle] at hne
      exact hne
    rw [toggleInternal, if_neg h1, if_neg h2, if_pos hle,
      toggleSend_success _ _ _ _ _ _ _ hset hpost, if_pos hne1]
    exact ⟨rfl, rfl⟩
  · have hmod : o.preRead.bytes.getD 7 0 % 256 % 256 = o.preRead.bytes.getD 7 0 % 256 := by
      omega
    have hne1 : o.postRead.bytes.getD 7 0 % 256 ≠
        expectSingle (o.preRead.bytes.getD 7 0 % 256) rn v := by
      rw [toggleExpect, if_neg hle] at hne
      exact hne
    rw [toggleInternal, if_neg h1, if_neg h2, if_neg hle,
      readStates_success s o.preRead (hpre (by omega))]
    simp only [Int.toNat_natCast, hmod]
    rw [if_neg (not_lt.mpr (Int.natCast_nonneg _)),
      toggleSend_success _ _ _ _ _ _ _ hset hpost, if_pos hne1]
    exact ⟨rfl, rfl⟩

/-- Closed instance of c4_cache_adopts_reread at the counterexample input. -/
theorem c4_cache_adopts_reread_witness :
    (toggleInternal c4State 1 true c4Oracle).ok = false ∧
    (toggleInternal c4State 1 true c4Oracle).state.states =
      c4Oracle.postRead.bytes.getD 7 0 % 256 :=
  c4_cache_adopts_reread c4State 1 true c4Oracle (by decide) (by decide)
    (fun _ => by decide) (by decide) (by decide) (by decide)

theorem toggleSend_setfail (s : RelayState) (rn : Int) (c1 c2 e : Nat)
    (o : ToggleOracle) (pre : List Xfer) (h : o.setRes ≠ 8) :
    toggleSend s rn c1 c2 e o pre =
      ⟨if o.setRes < 0 then
          { s with
              usbLastErrorCode := o.setRes
              usbContinuousErrors := s.usbContinuousErrors + 1 }
        else
          { s with usbContinuousErrors := s.usbContinuousErrors + 1 },
        false, [RelayEvent.failChange rn],
        pre ++ [Xfer.set [c1, c2, 0, 0, 0, 0, 0, 0]]⟩ := by
  simp [toggleSend, h]

theorem toggleSend_postfail (s : RelayState) (rn : Int) (c1 c2 e : Nat)
    (o : ToggleOracle) (pre : List Xfer)
    (hset : o.setRes = 8) (hpost : o.postRead.res ≠ 8) :
    toggleSend s rn c1 c2 e o pre =
      ⟨(readStates s o.postRead).1, false, [RelayEvent.failChange rn],
        pre ++ [Xfer.set [c1, c2, 0, 0, 0, 0, 0, 0], Xfer.get]⟩ := by
  simp only [toggleSend, hset, readStates_fail s o.postRead hpost, ne_eq,
    not_true_eq_false, if_false]
  norm_num

theorem setSerial_success (s : RelayState) (value : List Nat) (o : SerialOracle)
    (hvb : serialBytesOk (normalizeSerial value) = true)
    (hset : o.setRes = 8) (hrep : o.reply.res = 8)
    (hterm : o.reply.bytes.getD 6 0 % 256 = 0) :
    setSerial s value o =
      ⟨{ s with
          usbContinuousErrors := 0
          usbLastErrorCode := 0
          serial := latin1OfBytes o.reply.bytes },
        true, [Xfer.set (250 :: (normalizeSerial value ++ [0, 0])), Xfer.get]⟩ := by
  rw [setSerial, if_neg (by rw [hvb]; simp), if_neg (by rw [hset]; simp),
    readStates_success _ _ hrep]
  rw [if_neg (not_lt.mpr (Int.natCast_nonneg _)), if_neg (by rw [hterm]; simp)]

/-- C5: a candidate is accepted by the product validation of claimDevice
exactly when its product string is baseProductName followed by one further
character whose digit value is 1, 2, 4 or 8; the strings Foo1 (wrong
prefix), USBRelay (no digit), USBRelay11 (more than one trailing character)
and USBRelay3 (digit outside the set) are rejected, and a rejected
candidate is closed (the close count grows by one) while the scan continues
with the remaining devices. -/
theorem c5_product_validation :
    (∀ p c, validateProduct p = some c ↔
      ∃ ch, p = baseProductName ++ [ch] ∧ c = (ch.toNat : Int) - 48 ∧
        (c = 1 ∨ c = 2 ∨ c = 4 ∨ c = 8)) ∧
    validateProduct ['F', 'o', 'o', '1'] = none ∧
    validateProduct ['U', 'S', 'B', 'R', 'e', 'l', 'a', 'y'] = none ∧
    validateProduct ['U', 'S', 'B', 'R', 'e', 'l', 'a', 'y', '1', '1'] = none ∧
    validateProduct ['U', 'S', 'B', 'R', 'e', 'l', 'a', 'y', '3'] = none ∧
    (∀ p ps, validateProduct p = none →
      productScan (p :: ps) = ((productScan ps).1, (productScan ps).2 + 1)) := by
  refine ⟨?_, by decide, by decide, by decide, by decide, ?_⟩
  · intro p c
    constructor
    · intro h
      rw [validateProduct] at h
      split_ifs at h with ht hl hd
      have hp8 : p.take 8 = baseProductName := not_ne_iff.mp ht
      have hl9 : p.length = 9 := not_ne_iff.mp hl
      have hdrop : (p.drop 8).length = 1 := by
        rw [List.length_drop, hl9]
      obtain ⟨ch, hch⟩ := List.length_eq_one.mp hdrop
      have hpe : p = baseProductName ++ [ch] := by
        rw [← hp8, ← hch, List.take_append_drop]
      subst hpe
      have hc : ((ch.toNat : Int) - 48) = c := Option.some_injective _ h
      have hd4 : (ch.toNat : Int) - 48 = 1 ∨ (ch.toNat : Int) - 48 = 2 ∨
          (ch.toNat : Int) - 48 = 4 ∨ (ch.toNat : Int) - 48 = 8 := hd
      exact ⟨ch, rfl, hc.symm, by omega⟩
    · rintro ⟨ch, rfl, rfl, hmem⟩
      have hstep : validateProduct (baseProductName ++ [ch]) =
          if (ch.toNat : Int) - 48 = 1 ∨ (ch.toNat : Int) - 48 = 2 ∨
             (ch.toNat : Int) - 48 = 4 ∨ (ch.toNat : Int) - 48 = 8 then
            some ((ch.toNat : Int) - 48)
          else none := rfl
      rw [hstep, if_pos hmem]
  · intro p ps h
    simp only [productScan, h]

/-- Closed instance of c5_product_validation: USBRelay4 is accepted with
relay count 4, and a scan whose sole candidate is Foo1 accepts nothing and
closes one handle. -/
theorem c5_product_validation_witness :
    validateProduct ['U', 'S', 'B', 'R', 'e', 'l', 'a', 'y', '4'] = some 4 ∧
    productScan [['F', 'o', 'o', '1']] = (none, 1) := by
  have h := c5_product_validation
  constructor
  · exact (h.1 ['U', 'S', 'B', 'R', 'e', 'l', 'a', 'y', '4'] 4).mpr
      ⟨'4', by rfl, by decide, by decide⟩
  · have h6 := h.2.2.2.2.2 ['F', 'o', 'o', '1'] [] (by decide)
    simpa using h6

/-- C6: setSerial truncates its input to 5 bytes and right-pads with the
character 0 to length 5 (AB becomes AB000, TOO-LONG-VALUE becomes its first
5 bytes TOO-L); when the device echoes the written serial the stored serial
is the normalized string; and when any normalized byte is at most 0x20 or
at least 0x7F, setSerial returns false before issuing any USB transfer and
the controller state — hence the stored serial — is unchanged. -/
theorem c6_set_serial_normalization :
    normalizeSerial [65, 66] = [65, 66, 48, 48, 48] ∧
    normalizeSerial [84, 79, 79, 45, 76, 79, 78, 71, 45, 86, 65, 76, 85, 69] =
      [84, 79, 79, 45, 76] ∧
    (∀ s value o, serialBytesOk (normalizeSerial value) = false →
      setSerial s value o = ⟨s, false, []⟩) ∧
    (∀ (s : RelayState) (st : Nat),
      setSerial s [65, 66] ⟨8, ⟨8, [65, 66, 48, 48, 48, 0, 0, st]⟩⟩ =
        ⟨{ s with
            usbContinuousErrors := 0
            usbLastErrorCode := 0
            serial := ['A', 'B', '0', '0', '0'] },
          true, [Xfer.set [250, 65, 66, 48, 48, 48, 0, 0], Xfer.get]⟩) := by
  refine ⟨by decide, by decide, ?_, ?_⟩
  · intro s value o h
    rw [setSerial, if_pos h]
  · intro s st
    rw [setSerial_success s [65, 66] ⟨8, ⟨8, [65, 66, 48, 48, 48, 0, 0, st]⟩⟩
      (by decide) rfl rfl rfl]
    rfl

/-- Closed instance of c6_set_serial_normalization: a serial containing the
control byte 10 is rejected with no transfer and no state change. -/
theorem c6_set_serial_normalization_witness :
    setSerial initialState [65, 10] ⟨8, ⟨8, [0, 0, 0, 0, 0, 0, 0, 0]⟩⟩ =
      ⟨initialState, false, []⟩ :=
  c6_set_serial_normalization.2.2.1 initialState [65, 10]
    ⟨8, ⟨8, [0, 0, 0, 0, 0, 0, 0, 0]⟩⟩ (by decide)

/-- C8 counterexample: starting from 2 continuous errors, a setSerial call
whose SET transfer succeeds but whose GET read-back fails ends with 3
continuous errors; if the successful SET reset the counters as the claim
states, the count would be 1. -/
theorem c8_set_success_no_reset_cex :
    (setSerial c8State [65, 66]
      ⟨8, ⟨-7, [0, 0, 0, 0, 0, 0, 0, 0]⟩⟩).state.usbContinuousErrors = 3 ∧
    (setSerial c8State [65, 66]
      ⟨8, ⟨-7, [0, 0, 0, 0, 0, 0, 0, 0]⟩⟩).state.usbContinuousErrors ≠ 1 := by
  decide

/-- C8 amended: every failed transfer increments continuousErrorCount and
records lastErrorCode when the result is negative — a failed GET
(readStates), the failed SET inside setSerial, and the failed SET inside
toggle alike; a successful GET resets both counters to zero; but a
successful SET transfer by itself does not reset them — inside setSerial
and inside toggle (all-relays branch, which issues no pre-read) a
successful SET followed by a failed GET leaves the incremented pre-call
count, where a reset-on-successful-SET would leave exactly 1. -/
theorem c8_error_counters (s : RelayState) :
    (∀ r : GetReply, r.res ≠ 8 →
      (readStates s r).1.usbContinuousErrors = s.usbContinuousErrors + 1 ∧
      (r.res < 0 → (readStates s r).1.usbLastErrorCode = r.res)) ∧
    (∀ r : GetReply, r.res = 8 →
      (readStates s r).1.usbContinuousErrors = 0 ∧
      (readStates s r).1.usbLastErrorCode = 0) ∧
    (∀ value o, serialBytesOk (normalizeSerial value) = true → o.setRes ≠ 8 →
      (setSerial s value o).state.usbContinuousErrors = s.usbContinuousErrors + 1 ∧
      (o.setRes < 0 → (setSerial s value o).state.usbLastErrorCode = o.setRes)) ∧
    (∀ value o, serialBytesOk (normalizeSerial value) = true → o.setRes = 8 →
      o.reply.res ≠ 8 →
      (setSerial s value o).state.usbContinuousErrors = s.usbContinuousErrors + 1) ∧
    (∀ (rn : Int) (v : Bool) (o : ToggleOracle),
      s.deviceInitialized = true → rn ≤ 0 → rn ≤ s.count → o.setRes ≠ 8 →
      (toggleInternal s rn v o).state.usbContinuousErrors = s.usbContinuousErrors + 1 ∧
      (o.setRes < 0 → (toggleInternal s rn v o).state.usbLastErrorCode = o.setRes)) ∧
    (∀ (rn : Int) (v : Bool) (o : ToggleOracle),
      s.deviceInitialized = true → rn ≤ 0 → rn ≤ s.count → o.setRes = 8 →
      o.postRead.res ≠ 8 →
      (toggleInternal s rn v o).state.usbContinuousErrors =
        s.usbContinuousErrors + 1) := by
  refine ⟨?_, ?_, ?_, ?_, ?_, ?_⟩
  · intro r h
    rw [readStates_fail s r h]
    constructor
    · split_ifs <;> rfl
    · intro hlt
      rw [if_pos hlt]
  · intro r h
    rw [readStates_success s r h]
    exact ⟨rfl, rfl⟩
  · intro value o hvb hsr
    rw [setSerial, if_neg (by rw [hvb]; simp), if_pos hsr]
    constructor
    · split_ifs <;> rfl
    · intro hlt
      rw [if_pos hlt]
  · intro value o hvb hset hrep
    rw [setSerial, if_neg (by rw [hvb]; simp), if_neg (by rw [hset]; simp),
      if_pos (by rw [readStates_fail s o.reply hrep]; norm_num)]
    rw [readStates_fail s o.reply hrep]
    split_ifs <;> rfl
  · intro rn v o hInit hle hrc hsr
    have h1 : ¬ (s.deviceInitialized = false) := by rw [hInit]; simp
    have h2 : ¬ (rn > s.count) := not_lt.mpr hrc
    rw [toggleInternal, if_neg h1, if_neg h2, if_pos hle,
      toggleSend_setfail _ _ _ _ _ _ _ hsr]
    constructor
    · split_ifs <;> rfl
    · intro hlt
      rw [if_pos hlt]
  · intro rn v o hInit hle hrc hset hpost
    have h1 : ¬ (s.deviceInitialized = false) := by rw [hInit]; simp
    have h2 : ¬ (rn > s.count) := not_lt.mpr hrc
    rw [toggleInternal, if_neg h1, if_neg h2, if_pos hle,
      toggleSend_postfail _ _ _ _ _ _ _ hset hpost,
      readStates_fail s o.postRead hpost]
    split_ifs <;> rfl

/-- Closed instance of c8_error_counters: a failed GET on the fresh
controller yields one continuous error with code -7 recorded, and an
all-relays toggle from 2 accumulated errors whose SET succeeds but whose
verification re-read fails ends at 3 errors, not 1. -/
theorem c8_error_counters_witness :
    ((readStates initialState ⟨-7, []⟩).1.usbContinuousErrors = 0 + 1 ∧
      (readStates initialState ⟨-7, []⟩).1.usbLastErrorCode = -7) ∧
    (toggleInternal c8State 0 true
      ⟨⟨8, []⟩, 8, ⟨-7, []⟩⟩).state.usbContinuousErrors = 2 + 1 := by
  have h1 := (c8_error_counters initialState).1 ⟨-7, []⟩ (by decide)
  have h6 := (c8_error_counters c8State).2.2.2.2.2 0 true ⟨⟨8, []⟩, 8, ⟨-7, []⟩⟩
    (by decide) (by decide) (by decide) (by decide) (by decide)
  exact ⟨⟨h1.1, h1.2 (by decide)⟩, h6⟩

/-- C10: setSerial performs no attachment check — called while not attached
and with a null device handle, a valid serial still leads straight to a SET
control transfer (the first transfer issued is the 0xFA command report);
there is no guard making that transfer unreachable. -/
theorem c10_set_serial_unguarded (s : RelayState) (value : List Nat)
    (o : SerialOracle)
    (hdet : s.deviceInitialized = false) (hnull : s.deviceHandleOpen = false)
    (hval : serialBytesOk (normalizeSerial value) = true) :
    (setSerial s value o).xfers.head? =
      some (Xfer.set (250 :: (normalizeSerial value ++ [0, 0]))) := by
  rw [setSerial, if_neg (by rw [hval]; simp)]
  split_ifs <;> rfl

/-- Closed instance of c10_set_serial_unguarded on the default-constructed
(null-handle, unattached) controller. -/
theorem c10_set_serial_unguarded_witness :
    (setSerial initialState [65, 66]
      ⟨8, ⟨8, [0, 0, 0, 0, 0, 0, 0, 0]⟩⟩).xfers.head? =
      some (Xfer.set [250, 65, 66, 48, 48, 48, 0, 0]) := by
  have h := c10_set_serial_unguarded initialState [65, 66]
    ⟨8, ⟨8, [0, 0, 0, 0, 0, 0, 0, 0]⟩⟩ (by decide) (by decide) (by decide)
  exact h.trans (by decide)

theorem readStates_frame (s : RelayState) (r : GetReply) :
    (readStates s r).1.count = s.count ∧
    (readStates s r).1.deviceInitialized = s.deviceInitialized := by
  rw [readStates]
  split_ifs <;> exact ⟨rfl, rfl⟩

theorem toggleSend_frame (s : RelayState) (rn : Int) (c1 c2 e : Nat)
    (o : ToggleOracle) (pre : List Xfer) :
    (toggleSend s rn c1 c2 e o pre).state.count = s.count ∧
    (toggleSend s rn c1 c2 e o pre).state.deviceInitialized = s.deviceInitialized := by
  have hf := readStates_frame s o.postRead
  simp only [toggleSend]
  split_ifs <;> simp_all

theorem toggleInternal_frame (s : RelayState) (rn : Int) (v : Bool) (o : ToggleOracle) :
    (toggleInternal s rn v o).state.count = s.count ∧
    (toggleInternal s rn v o).state.deviceInitialized = s.deviceInitialized := by
  have h1 := readStates_frame s o.preRead
  have h2 := toggleSend_frame s 0 (if v then 254 else 252) 0 (expectAll s.count v) o []
  have h3 := toggleSend_frame (readStates s o.preRead).1 rn (if v then 255 else 253)
    (rn.toNat % 256) (expectSingle ((readStates s o.preRead).2.toNat % 256) rn v)
    o [Xfer.get]
  rw [toggleInternal]
  split_ifs <;> simp_all

theorem setSerial_frame (s : RelayState) (value : List Nat) (o : SerialOracle) :
    (setSerial s value o).state.count = s.count ∧
    (setSerial s value o).state.deviceInitialized = s.deviceInitialized := by
  have h1 := readStates_frame s o.reply
  rw [setSerial]
  split_ifs <;> simp_all

theorem supervisorPoll_frame (s : RelayState) (r : GetReply) :
    (supervisorPoll s r).count = s.count ∧
    (supervisorPoll s r).deviceInitialized = s.deviceInitialized := by
  have h1 := readStates_frame s r
  rw [supervisorPoll]
  split_ifs <;> simp_all

theorem initLoop_frame (init snapshot : List Int) :
    ∀ (idx : List Nat) (s : RelayState) (os : List ToggleOracle) (s' : RelayState),
      initLoop init snapshot s os idx = some s' →
      s'.count = s.count ∧ s'.deviceInitialized = s.deviceInitialized := by
  intro idx
  induction idx with
  | nil =>
    intro s os s' h
    simp only [initLoop] at h
    obtain rfl := Option.some_injective _ h
    exact ⟨rfl, rfl⟩
  | cons i is ih =>
    intro s os s' h
    simp only [initLoop] at h
    cases hg : init.get? i with
    | none =>
      simp only [hg] at h
      exact absurd h (by simp)
    | some v =>
      simp only [hg] at h
      split_ifs at h with hne
      · cases os with
        | nil => simp at h
        | cons o rest =>
          have hrec := ih _ rest s' h
          have hf := toggleInternal_frame s ((i : Int) + 1) (decide (v ≠ 0)) o
          exact ⟨hrec.1.trans hf.1, hrec.2.trans hf.2⟩
      · exact ih _ os s' h

theorem applyInitStates_frame (s : RelayState) (os : List ToggleOracle)
    (s' : RelayState) (h : applyInitStates s os = some s') :
    s'.count = s.count ∧ s'.deviceInitialized = s.deviceInitialized := by
  rw [applyInitStates] at h
  by_cases he : s.initStates.isEmpty = true
  · rw [if_pos he] at h
    obtain rfl := Option.some_injective _ h
    exact ⟨rfl, rfl⟩
  · rw [if_neg he] at h
    set init := (if (s.initStates.length : Int) > s.count then s.initStates.take s.count.toNat
      else s.initStates) with hinit
    cases hm : initLoop init (statesInternal s) { s with initStates := init }
        os (List.range s.count.toNat) with
    | none =>
      simp only [hm] at h
      exact absurd h (by simp)
    | some s1 =>
      simp only [hm] at h
      obtain rfl := Option.some_injective _ h
      have hrec := initLoop_frame init (statesInternal s) (List.range s.count.toNat)
        { s with initStates := init } os s1 hm
      exact ⟨hrec.1, hrec.2⟩

theorem validateProduct_mem {p : List Char} {c : Int}
    (h : validateProduct p = some c) : c = 1 ∨ c = 2 ∨ c = 4 ∨ c = 8 := by
  rw [validateProduct] at h
  split_ifs at h with ht hl hd <;> simp_all

theorem claimPublish_good (s : RelayState) (cand : Candidate) (s' : RelayState)
    (h : claimPublish s cand = some s') :
    (s'.count = 1 ∨ s'.count = 2 ∨ s'.count = 4 ∨ s'.count = 8) ∧
    s'.deviceInitialized = true := by
  rw [claimPublish] at h
  cases hv : validateProduct cand.productStr with
  | none => rw [hv] at h; simp at h
  | some c =>
    rw [hv] at h
    have hmem := validateProduct_mem hv
    split_ifs at h
    obtain rfl := Option.some_injective _ h
    exact ⟨by simpa using hmem, rfl⟩

theorem reachable_count_good (s : RelayState) (h : Reachable s) :
    (s.count = 0 ∨ s.count = 1 ∨ s.count = 2 ∨ s.count = 4 ∨ s.count = 8) ∧
    (s.deviceInitialized = true →
      (s.count = 1 ∨ s.count = 2 ∨ s.count = 4 ∨ s.count = 8)) := by
  induction h with
  | start init => exact ⟨Or.inl rfl, by simp [initialState]⟩
  | claim cand hr hpub ih =>
    obtain ⟨hc, hini⟩ := claimPublish_good _ _ _ hpub
    exact ⟨Or.inr hc, fun _ => hc⟩
  | applyInit os hr happ ih =>
    obtain ⟨hc, hini⟩ := applyInitStates_frame _ _ _ happ
    refine ⟨by rw [hc]; exact ih.1, ?_⟩
    intro hx
    rw [hini] at hx
    rw [hc]
    exact ih.2 hx
  | poll r hr ih =>
    obtain ⟨hc, hini⟩ := supervisorPoll_frame _ r
    refine ⟨by rw [hc]; exact ih.1, ?_⟩
    intro hx
    rw [hini] at hx
    rw [hc]
    exact ih.2 hx
  | toggleStep rn v o hr ih =>
    obtain ⟨hc, hini⟩ := toggleInternal_frame _ rn v o
    refine ⟨by rw [hc]; exact ih.1, ?_⟩
    intro hx
    rw [hini] at hx
    rw [hc]
    exact ih.2 hx
  | serialStep value o hr ih =>
    obtain ⟨hc, hini⟩ := setSerial_frame _ value o
    refine ⟨by rw [hc]; exact ih.1, ?_⟩
    intro hx
    rw [hini] at hx
    rw [hc]
    exact ih.2 hx
  | releaseStep d hr ih =>
    refine ⟨Or.inl rfl, ?_⟩
    intro hx
    simp [releaseDevice] at hx
  | attach v hr ih => exact ih
  | dropInit hr ih =>
    refine ⟨ih.1, ?_⟩
    intro hx
    simp at hx

/-- C9 counterexample: the default-constructed controller state is reachable
(it is exactly the state before any device is attached) and its relay count
is 0, not one of 1, 2, 4, 8 — the claim says count() is in that set at all
times, including before any attach. -/
theorem c9_unattached_count_zero_cex :
    Reachable initialState ∧ initialState.count = 0 ∧
    ¬(initialState.count = 1 ∨ initialState.count = 2 ∨ initialState.count = 4 ∨
      initialState.count = 8) :=
  ⟨Reachable.start [], by decide, by decide⟩

/-- C9 amended: in every reachable state the relay count is 0 (as before any
attach and after a release) or one of 1, 2, 4, 8; whenever the device is
attached it is one of 1, 2, 4, 8; and the vector returned by states() always
has length equal to the relay count. -/
theorem c9_count_states_invariant (s : RelayState) (h : Reachable s) :
    (s.count = 0 ∨ s.count = 1 ∨ s.count = 2 ∨ s.count = 4 ∨ s.count = 8) ∧
    (s.deviceInitialized = true →
      (s.count = 1 ∨ s.count = 2 ∨ s.count = 4 ∨ s.count = 8)) ∧
    (statesInternal s).length = s.count.toNat :=
  ⟨(reachable_count_good s h).1, (reachable_count_good s h).2, by simp [statesInternal]⟩

/-- Closed instance of c9_count_states_invariant at the initial state. -/
theorem c9_count_states_invariant_witness :
    (initialState.count = 0 ∨ initialState.count = 1 ∨ initialState.count = 2 ∨
      initialState.count = 4 ∨ initialState.count = 8) ∧
    (initialState.deviceInitialized = true →
      (initialState.count = 1 ∨ initialState.count = 2 ∨ initialState.count = 4 ∨
        initialState.count = 8)) ∧
    (statesInternal initialState).length = initialState.count.toNat :=
  c9_count_states_invariant initialState (Reachable.start [])

end UsbRelay
